import Mathlib

/-!
# Verification of the KSP MGA planner editor core

Shallow embedding of `src/main/editor/editor.ts` (the editor control flow
around sequence generation and trajectory search), together with
spec-modelled components for the parts of the repository that the editor
imports but whose sources are not in the excerpt (the flyby-sequence
generator, the trajectory solver, the `FlybySequence` string codec and
the `IntegerInput` clamping behaviour).

Exceptions of the TypeScript source are modelled as an `Option String`
thrown-message component threaded next to the explicit UI state; `try`
bodies are functions returning `State × Option String`, the `catch` and
`finally` blocks are applied by wrapper functions in the source's order.
-/

/-- A celestial body as the editor sees it: identity, attractor identity,
body radius and sphere-of-influence radius (metres), and the radius of its
orbit around the central body (used to classify back legs). -/
structure CelestialBody where
  id : Nat
  attractorId : Nat
  radius : Int
  soi : Int
  orbitRadius : Nat
deriving DecidableEq, Repr

/-- A flyby sequence: the ordered list of visited bodies, origin first,
destination last. -/
structure FlybySequence where
  bodies : List CelestialBody
deriving DecidableEq, Repr

/-- Sentinel message thrown by the sequence generator worker on cancellation
(`editor.ts` line 160 compares against it). -/
def workerCancelledMsg : String := "WORKER CANCELLED"

/-- Sentinel message thrown by the trajectory solver on cancellation
(`editor.ts` line 403 compares against it). -/
def trajCancelledMsg : String := "TRAJECTORY FINDER CANCELLED"

/-- Error thrown by `assertSequenceInputs` when the origin and destination
bodies have different attractors (`editor.ts` line 116). -/
def attractorErrMsg : String := "Origin and destination bodies must orbit the same body."

/-- Error thrown by `assertSequenceInputs` when the origin and destination
bodies are identical (`editor.ts` line 119). -/
def sameBodyErrMsg : String := "Same origin and destination bodies."

/-- Modelled from the spec: `IntegerInput.assertValidity` (the
`integer-input.ts` file is not part of the excerpt) throws a descriptive
error when a bound input is out of range; only the fact that it throws some
non-sentinel message matters to the editor flow. -/
def invalidInputsMsg : String := "Invalid sequence parameter inputs."

/-- Outcome of the awaited `generator.generateFlybySequences` call: the
worker resolves with the sequence list, or rejects with the cancellation
sentinel, or rejects with a failure message. -/
inductive GenOutcome where
  | success : List FlybySequence → GenOutcome
  | cancelled : GenOutcome
  | failure : String → GenOutcome
deriving DecidableEq, Repr

/-- Inputs of one run of `generateSequences`: validity of the four integer
bound inputs, the selected origin and destination bodies, and the outcome
the awaited generator call would produce. -/
structure GenInputs where
  inputsOk : Bool
  depBody : CelestialBody
  destBody : CelestialBody
  outcome : GenOutcome
deriving DecidableEq, Repr

/-- The editor UI state touched by the sequence-generation flow.
`generatorCalled` and `succeeded` are instrumentation recording whether the
current run reached the generator call and the end of its `try` block; both
are reset at the start of `generateSequences`. -/
structure GenState where
  paramsErrShown : Bool
  systemSelectorEnabled : Bool
  seqSelectorEnabled : Bool
  seqSelectorContents : List FlybySequence
  progressShown : Bool
  seqGenBtnEnabled : Bool
  loggedErrors : List String
  generatorCalled : Bool
  succeeded : Bool
deriving DecidableEq, Repr

/-- The `try` block of `generateSequences` (`editor.ts` lines 149-158):
disable and clear the sequence selector, enable the progress message, run
`assertSequenceInputs` (lines 106-120), then `runSequenceGeneration`
(lines 128-144) which awaits the generator and fills the selector, then
re-enable the selector. Returns the state at exit together with the thrown
message, if any. -/
def genTryBody (inp : GenInputs) (st : GenState) : GenState × Option String :=
  let st := { st with seqSelectorEnabled := false, seqSelectorContents := [],
                      progressShown := true }
  if inp.inputsOk = false then
    (st, some invalidInputsMsg)
  else if inp.depBody.attractorId ≠ inp.destBody.attractorId then
    (st, some attractorErrMsg)
  else if inp.depBody.id = inp.destBody.id then
    (st, some sameBodyErrMsg)
  else
    let st := { st with generatorCalled := true }
    match inp.outcome with
    | GenOutcome.success seqs =>
        ({ st with seqSelectorContents := seqs, seqSelectorEnabled := true,
                   succeeded := true }, none)
    | GenOutcome.cancelled => (st, some workerCancelledMsg)
    | GenOutcome.failure m => (st, some m)

/-- `generateSequences` (`editor.ts` lines 146-168): hide the parameter
error, disable the system selector, run the `try` body; in `catch`, show the
error unless its message is the cancellation sentinel and log it to the
console either way; in `finally`, hide the progress message and re-enable
the system selector. The function never rethrows. -/
def generateSequences (inp : GenInputs) (st : GenState) : GenState :=
  let st := { st with paramsErrShown := false, systemSelectorEnabled := false,
                      generatorCalled := false, succeeded := false }
  let r := genTryBody inp st
  let st2 :=
    match r.2 with
    | none => r.1
    | some m =>
        let shown := if m = workerCancelledMsg then r.1.paramsErrShown else true
        { r.1 with paramsErrShown := shown, loggedErrors := r.1.loggedErrors ++ [m] }
  { st2 with progressShown := false, systemSelectorEnabled := true }

/-- The `seqGenBtn` click handler (`editor.ts` lines 171-176): disable the
button, await `generateSequences` (which never rejects), re-enable it. -/
def seqGenBtnClick (inp : GenInputs) (st : GenState) : GenState :=
  let st := { st with seqGenBtnEnabled := false }
  let st := generateSequences inp st
  { st with seqGenBtnEnabled := true }

/-- Error thrown by `findTrajectory` when a departure or arrival date input
fails validation (`editor.ts` line 358). -/
def invalidDatesMsg : String := "Invalid departure and arrival date values."

/-- Error thrown by `findTrajectory` when the departure window ends before it
starts (`editor.ts` line 364). -/
def dateRangeErrMsg : String := "Departure date range end must be greater than the start date."

/-- Error thrown by `findTrajectory` when the duration limit input fails
validation (`editor.ts` line 370). -/
def invalidDurationMsg : String := "Invalid duration limit."

/-- Fallback body used to model the JavaScript indexing
`sequence.bodies[0]` / `sequence.bodies[slen-1]`, which is only ever reached
with a non-empty sequence. -/
def defaultBody : CelestialBody :=
  { id := 0, attractorId := 0, radius := 0, soi := 0, orbitRadius := 0 }

/-- Modelled from the spec: `IntegerInput.setMinMax` (the `integer-input.ts`
file is not part of the excerpt) re-clamps the input's current value into
the given inclusive range. -/
def clampValue (v lo hi : Int) : Int := max lo (min v hi)

/-- The altitude cap computed by `updateAltitudeRange` (`editor.ts` lines
207-210): `Math.floor((body.soi - body.radius) / 1000)` kilometres. -/
def altitudeMax (b : CelestialBody) : Int := Int.fdiv (b.soi - b.radius) 1000

/-- Outcome of the awaited `solver.searchOptimalTrajectory` call: the worker
resolves, or rejects with the cancellation sentinel, or rejects with a
failure message. -/
inductive TrajOutcome where
  | success : TrajOutcome
  | cancelled : TrajOutcome
  | failure : String → TrajOutcome
deriving DecidableEq, Repr

/-- The `userSettings` record handed to `solver.searchOptimalTrajectory`
(`editor.ts` lines 387-394); `maxDuration = none` stands for `Infinity`. -/
structure TrajSettings where
  startDate : Int
  endDate : Int
  depAltitude : Int
  destAltitude : Int
  noInsertion : Bool
  maxDuration : Option Int
deriving DecidableEq, Repr

/-- Inputs of one run of `findTrajectory`: the sequence obtained from the
custom-sequence string or the selector (an `Except` since parsing a custom
string can throw), the date inputs and their validity, the raw altitude
input values, the duration inputs, the insertion flag, and the outcome the
awaited solver call would produce. -/
structure TrajInputs where
  sequenceResult : Except String FlybySequence
  timeStartValid : Bool
  timeEndValid : Bool
  startDate : Int
  endDate : Int
  depAltitudeInput : Int
  destAltitudeInput : Int
  maxDurationValid : Bool
  useMaxDuration : Bool
  maxDurationDays : Int
  configTimeBase : Bool
  hoursPerDay : Int
  noInsertion : Bool
  outcome : TrajOutcome
deriving Repr

/-- The editor UI state touched by the trajectory-search flow. `solverCall`
is instrumentation recording the sequence and settings of the solver call the
current run reached, if any; it is reset at the start of `findTrajectory`. -/
structure TrajState where
  paramsErrShown : Bool
  systemSelectorEnabled : Bool
  searchBtnEnabled : Bool
  loggedErrors : List String
  solverCall : Option (FlybySequence × TrajSettings)
  trajectoryDisplayed : Bool
  depAltClamped : Int
  destAltClamped : Int
deriving DecidableEq, Repr

/-- The `try` block of `findTrajectory` (`editor.ts` lines 344-400): obtain
the sequence, re-clamp both altitude inputs from its first and last bodies,
validate the date inputs, reject `endDate < startDate`, convert altitudes to
metres, validate the duration limit, compute the duration cap in seconds,
reset the result panel, call the solver and on success display the found
trajectory. Returns the state at exit together with the thrown message, if
any. -/
def trajTryBody (inp : TrajInputs) (st : TrajState) : TrajState × Option String :=
  match inp.sequenceResult with
  | Except.error m => (st, some m)
  | Except.ok seq =>
    let firstBody := seq.bodies.getD 0 defaultBody
    let lastBody := seq.bodies.getD (seq.bodies.length - 1) defaultBody
    let st := { st with depAltClamped := clampValue inp.depAltitudeInput 0 (altitudeMax firstBody),
                        destAltClamped := clampValue inp.destAltitudeInput 0 (altitudeMax lastBody) }
    if !(inp.timeStartValid && inp.timeEndValid) then
      (st, some invalidDatesMsg)
    else if inp.endDate < inp.startDate then
      (st, some dateRangeErrMsg)
    else
      let depAltitudeVal := st.depAltClamped * 1000
      let destAltitudeVal := st.destAltClamped * 1000
      if !inp.maxDurationValid then
        (st, some invalidDurationMsg)
      else
        let maxDurationSeconds : Option Int :=
          if inp.useMaxDuration then
            if inp.configTimeBase then
              some (inp.maxDurationDays * (inp.hoursPerDay * 3600))
            else
              some (inp.maxDurationDays * (24 * 3600))
          else none
        let st := { st with trajectoryDisplayed := false }
        let settings : TrajSettings :=
          { startDate := inp.startDate, endDate := inp.endDate,
            depAltitude := depAltitudeVal, destAltitude := destAltitudeVal,
            noInsertion := inp.noInsertion, maxDuration := maxDurationSeconds }
        let st := { st with solverCall := some (seq, settings) }
        match inp.outcome with
        | TrajOutcome.success => ({ st with trajectoryDisplayed := true }, none)
        | TrajOutcome.cancelled => (st, some trajCancelledMsg)
        | TrajOutcome.failure m => (st, some m)

/-- `findTrajectory` (`editor.ts` lines 341-411): hide the parameter error,
disable the system selector, run the `try` body; in `catch`, show the error
unless its message is the cancellation sentinel and log it to the console
either way; in `finally`, re-enable the system selector. The function never
rethrows. -/
def findTrajectory (inp : TrajInputs) (st : TrajState) : TrajState :=
  let st := { st with paramsErrShown := false, systemSelectorEnabled := false,
                      solverCall := none }
  let r := trajTryBody inp st
  let st2 :=
    match r.2 with
    | none => r.1
    | some m =>
        let shown := if m = trajCancelledMsg then r.1.paramsErrShown else true
        { r.1 with paramsErrShown := shown, loggedErrors := r.1.loggedErrors ++ [m] }
  { st2 with systemSelectorEnabled := true }

/-- The `searchStartBtn` click handler (`editor.ts` lines 414-419): disable
the button, await `findTrajectory` (which never rejects), re-enable it. -/
def searchStartBtnClick (inp : TrajInputs) (st : TrajState) : TrajState :=
  let st := { st with searchBtnEnabled := false }
  let st := findTrajectory inp st
  { st with searchBtnEnabled := true }

/-- The sequence-generation search parameters assembled by
`runSequenceGeneration` (`editor.ts` lines 134-141). -/
structure SeqParams where
  departureId : Nat
  destinationId : Nat
  maxSwingBys : Nat
  maxResonant : Nat
  maxBackLegs : Nat
  maxBackSpacing : Nat
deriving DecidableEq, Repr

/-- Number of gravity assists of a sequence: the intermediate bodies, i.e.
the length minus the origin and the destination. -/
def assistCount (bs : List CelestialBody) : Nat := bs.length - 2

/-- Number of resonant assists of a sequence: legs whose target body equals
their source body (a resonant return to the same body). -/
def resonantCount : List CelestialBody → Nat
  | b1 :: b2 :: rest => (if b2.id = b1.id then 1 else 0) + resonantCount (b2 :: rest)
  | _ => 0

/-- Per-leg back-leg classification: a leg is a back leg when its target
orbits closer to the central body than its source. -/
def backLegFlags : List CelestialBody → List Bool
  | b1 :: b2 :: rest => decide (b2.orbitRadius < b1.orbitRadius) :: backLegFlags (b2 :: rest)
  | _ => []

/-- Number of back legs of a sequence. -/
def backLegCount (bs : List CelestialBody) : Nat := (backLegFlags bs).count true

/-- Indices at which a flag list is `true`. -/
def trueIndices (flags : List Bool) : List Nat :=
  (List.range flags.length).filter (fun i => flags.getD i false)

/-- Differences between consecutive elements of a list of indices. -/
def consecutiveGaps : List Nat → List Nat
  | a :: b :: rest => (b - a) :: consecutiveGaps (b :: rest)
  | _ => []

/-- The spacing between any two consecutive back legs of the sequence is at
most `m` legs. -/
def backSpacingOk (m : Nat) (bs : List CelestialBody) : Bool :=
  (consecutiveGaps (trueIndices (backLegFlags bs))).all (fun g => g ≤ m)

/-- All four combinatorial bounds hold for the sequence. -/
def seqOk (p : SeqParams) (bs : List CelestialBody) : Bool :=
  decide (assistCount bs ≤ p.maxSwingBys) &&
  decide (resonantCount bs ≤ p.maxResonant) &&
  decide (backLegCount bs ≤ p.maxBackLegs) &&
  backSpacingOk p.maxBackSpacing bs

/-- The body graph the generator enumerates over. -/
structure GenSystem where
  bodies : List CelestialBody
deriving Repr

/-- Candidate next bodies from the current one: bodies sharing its
attractor (the current body itself included, giving resonant returns). -/
def candidates (sys : GenSystem) (cur : CelestialBody) : List CelestialBody :=
  sys.bodies.filter (fun b => b.attractorId = cur.attractorId)

/-- Modelled from the spec: the depth-first expansion of
`FlybySequenceGenerator` (`sequence-solver.ts` is not part of the excerpt).
At each node the partial sequence is extended by every candidate next body;
an extension violating any of the four bounds is pruned with no further
recursion; an extension reaching the destination is emitted. `fuel` bounds
the recursion depth. -/
def genAux (sys : GenSystem) (p : SeqParams) :
    Nat → List CelestialBody → CelestialBody → List (List CelestialBody)
  | 0, _, _ => []
  | fuel + 1, seqAcc, cur =>
    (candidates sys cur).flatMap (fun b =>
      let ext := seqAcc ++ [b]
      if seqOk p ext then
        if b.id = p.destinationId then [ext] else genAux sys p fuel ext b
      else [])

/-- Modelled from the spec: `FlybySequenceGenerator.generateFlybySequences`
(`sequence-solver.ts` is not part of the excerpt) — look up the departure
body and run the depth-first expansion from it. -/
def generateFlybySequences (sys : GenSystem) (p : SeqParams) (fuel : Nat) :
    List FlybySequence :=
  match sys.bodies.find? (fun b => b.id = p.departureId) with
  | none => []
  | some dep => (genAux sys p fuel [dep] dep).map (fun bs => { bodies := bs })

/-- Modelled from the spec: the running best objective of the trajectory
solver (`trajectory-solver.ts` is not part of the excerpt). Given the best
value carried so far and the best candidate delta-v of each remaining
generation, produce the best-so-far value reported by each snapshot. -/
def snapAux (best : ℚ) : List ℚ → List ℚ
  | [] => [best]
  | g :: gs => best :: snapAux (min best g) gs

/-- Modelled from the spec: the sequence of best-delta-v values carried by
the progress snapshots of one solver run, one snapshot per generation, given
each generation's best candidate delta-v. -/
def solverSnapshots : List ℚ → List ℚ
  | [] => []
  | g :: gs => snapAux g gs

/-- Modelled from the spec: decimal digits of a body id, least significant
digit first; part of the canonical body-id string codec of `FlybySequence`
(`sequence.ts` is not part of the excerpt). -/
def natToDigitsLE (n : Nat) : List Char :=
  if n < 10 then [Char.ofNat (48 + n)]
  else Char.ofNat (48 + n % 10) :: natToDigitsLE (n / 10)
termination_by n
decreasing_by simp_wf; omega

/-- Decimal numeral of a body id, most significant digit first. -/
def natToNumeral (n : Nat) : List Char := (natToDigitsLE n).reverse

/-- Value of a decimal digit character. -/
def digitVal (c : Char) : Nat := c.toNat - 48

/-- Value of a decimal numeral, most significant digit first. -/
def digitsToNat (cs : List Char) : Nat := cs.foldl (fun a c => 10 * a + digitVal c) 0

/-- Join tokens with a dash separator. -/
def joinTok : List (List Char) → List Char
  | [] => []
  | [t] => t
  | t :: ts => t ++ '-' :: joinTok ts

/-- Split a character list at every dash. -/
def splitDash : List Char → List (List Char)
  | [] => [[]]
  | c :: rest =>
    if c = '-' then [] :: splitDash rest
    else
      match splitDash rest with
      | [] => [[c]]
      | t :: ts => (c :: t) :: ts

/-- Modelled from the spec: serialization of a `FlybySequence` to its
canonical body-id string (`sequence.ts` is not part of the excerpt) — the
decimal body ids joined by dashes. -/
def seqToString (s : FlybySequence) : List Char :=
  joinTok (s.bodies.map (fun b => natToNumeral b.id))

/-- O(1)-by-identity body lookup of the `System` model (the system sources
are not part of the excerpt): the first body with the given id. -/
def bodyFromId (sys : List CelestialBody) (i : Nat) : Option CelestialBody :=
  sys.find? (fun b => b.id = i)

/-- Parse one token of the canonical string: a non-empty decimal numeral
naming a body of the system. -/
def parseToken (sys : List CelestialBody) (t : List Char) : Option CelestialBody :=
  if t = [] then none else bodyFromId sys (digitsToNat t)

/-- Parse every token, failing if any token fails. -/
def parseTokens (sys : List CelestialBody) : List (List Char) → Option (List CelestialBody)
  | [] => some []
  | t :: ts =>
    match parseToken sys t, parseTokens sys ts with
    | some b, some bs => some (b :: bs)
    | _, _ => none

/-- Modelled from the spec: `FlybySequence.fromString` (`sequence.ts` is not
part of the excerpt) — split the canonical string at dashes and resolve each
decimal body id against the system. -/
def seqFromString (cs : List Char) (sys : List CelestialBody) : Option FlybySequence :=
  match parseTokens sys (splitDash cs) with
  | none => none
  | some bs => some { bodies := bs }

/-- Witness origin body. -/
def wBody1 : CelestialBody :=
  { id := 1, attractorId := 0, radius := 100, soi := 10100, orbitRadius := 5 }

/-- Witness destination body. -/
def wBody2 : CelestialBody :=
  { id := 2, attractorId := 0, radius := 200, soi := 30200, orbitRadius := 9 }

/-- Witness flyby sequence. -/
def wSeq : FlybySequence := { bodies := [wBody1, wBody2] }

/-- Witness system. -/
def wGenSystem : GenSystem := { bodies := [wBody1, wBody2] }

/-- Witness generation parameters. -/
def wSeqParams : SeqParams :=
  { departureId := 1, destinationId := 2, maxSwingBys := 2, maxResonant := 0,
    maxBackLegs := 1, maxBackSpacing := 2 }

/-- Witness initial generation-panel state. -/
def wGenState : GenState :=
  { paramsErrShown := false, systemSelectorEnabled := true,
    seqSelectorEnabled := false, seqSelectorContents := [],
    progressShown := false, seqGenBtnEnabled := true, loggedErrors := [],
    generatorCalled := false, succeeded := false }

/-- Witness initial trajectory-panel state. -/
def wTrajState : TrajState :=
  { paramsErrShown := false, systemSelectorEnabled := true,
    searchBtnEnabled := true, loggedErrors := [], solverCall := none,
    trajectoryDisplayed := false, depAltClamped := 0, destAltClamped := 0 }

/-- Witness generation inputs with a cancelled generator run. -/
def wGenInputsCancelled : GenInputs :=
  { inputsOk := true, depBody := wBody1, destBody := wBody2,
    outcome := GenOutcome.cancelled }

/-- Witness generation inputs with mismatched attractors. -/
def wGenInputsMismatch : GenInputs :=
  { inputsOk := true, depBody := wBody1,
    destBody := { id := 2, attractorId := 7, radius := 200, soi := 30200, orbitRadius := 9 },
    outcome := GenOutcome.success [] }

/-- Witness trajectory inputs passing every validation. -/
def wTrajInputsBase : TrajInputs :=
  { sequenceResult := Except.ok wSeq, timeStartValid := true, timeEndValid := true,
    startDate := 100, endDate := 200, depAltitudeInput := 80, destAltitudeInput := -5,
    maxDurationValid := true, useMaxDuration := false, maxDurationDays := 0,
    configTimeBase := true, hoursPerDay := 6, noInsertion := false,
    outcome := TrajOutcome.success }

/-- Witness per-generation best candidate delta-v values. -/
def wGens : List ℚ := [3, 2, 5]

/-- **C4**: a run of `generateSequences` whose origin and destination have
mismatched attractors or are identical never invokes the generator, and the
precondition violation is raised (the parameter error is shown) before any
background search work starts. -/
theorem c4_preconditions_block_generator (inp : GenInputs) (st : GenState)
    (hok : inp.inputsOk = true)
    (hpre : inp.depBody.attractorId ≠ inp.destBody.attractorId ∨
      inp.depBody.id = inp.destBody.id) :
    (generateSequences inp st).generatorCalled = false ∧
    (generateSequences inp st).paramsErrShown = true := by
  unfold generateSequences genTryBody
  rcases hpre with h | h
  · simp [hok, h, attractorErrMsg, workerCancelledMsg]
  · by_cases h2 : inp.depBody.attractorId = inp.destBody.attractorId
    · simp [hok, h, h2, sameBodyErrMsg, workerCancelledMsg]
    · simp [hok, h2, attractorErrMsg, workerCancelledMsg]

/-- Witness for C4 at concrete inputs with mismatched attractors. -/
theorem c4_preconditions_block_generator_witness :
    (generateSequences wGenInputsMismatch wGenState).generatorCalled = false ∧
    (generateSequences wGenInputsMismatch wGenState).paramsErrShown = true :=
  c4_preconditions_block_generator wGenInputsMismatch wGenState rfl (Or.inl (by decide))

/-- **C5**: a trajectory search request whose departure window has
`endDate < startDate` never reaches `solver.searchOptimalTrajectory`. -/
theorem c5_bad_date_range_blocks_solver (inp : TrajInputs) (st : TrajState)
    (h : inp.endDate < inp.startDate) :
    (findTrajectory inp st).solverCall = none := by
  unfold findTrajectory trajTryBody
  cases hs : inp.sequenceResult with
  | error m => simp [hs]
  | ok seq =>
    cases htv : inp.timeStartValid && inp.timeEndValid <;>
      simp [hs, htv, h]

/-- Witness for C5 at concrete inputs with a reversed date window. -/
theorem c5_bad_date_range_blocks_solver_witness :
    (findTrajectory { wTrajInputsBase with startDate := 200, endDate := 100 }
      wTrajState).solverCall = none :=
  c5_bad_date_range_blocks_solver
    { wTrajInputsBase with startDate := 200, endDate := 100 } wTrajState (by decide)

/-- **C8**: a trajectory search request whose departure window has
`endDate = startDate` passes the date-range check and reaches the solver
(the check raises only for a strictly smaller end date). -/
theorem c8_equal_dates_reach_solver (inp : TrajInputs) (st : TrajState)
    (seq : FlybySequence) (hseq : inp.sequenceResult = Except.ok seq)
    (h1 : inp.timeStartValid = true) (h2 : inp.timeEndValid = true)
    (heq : inp.endDate = inp.startDate) (h4 : inp.maxDurationValid = true) :
    ∃ s : TrajSettings, (findTrajectory inp st).solverCall = some (seq, s) := by
  have h3 : ¬ inp.endDate < inp.startDate := by omega
  unfold findTrajectory trajTryBody
  cases ho : inp.outcome <;>
    simp [hseq, h1, h2, h3, h4, ho, trajCancelledMsg]

/-- Witness for C8 at concrete inputs with coinciding window endpoints. -/
theorem c8_equal_dates_reach_solver_witness :
    ∃ s : TrajSettings,
      (findTrajectory { wTrajInputsBase with endDate := 100 } wTrajState).solverCall
        = some (wSeq, s) :=
  c8_equal_dates_reach_solver { wTrajInputsBase with endDate := 100 } wTrajState
    wSeq rfl rfl rfl rfl rfl

/-- **C3**: a sequence-generation run or trajectory-search run that ends by
cancellation never shows the parameter error to the user: the caller's
`catch` blocks compare against the cancellation sentinels and skip
`paramsErr.show` for them. -/
theorem c3_cancellation_not_surfaced (g : GenInputs) (gs : GenState)
    (t : TrajInputs) (ts : TrajState)
    (hok : g.inputsOk = true)
    (hattr : g.depBody.attractorId = g.destBody.attractorId)
    (hid : g.depBody.id ≠ g.destBody.id)
    (hgc : g.outcome = GenOutcome.cancelled)
    (seq : FlybySequence) (hseq : t.sequenceResult = Except.ok seq)
    (h1 : t.timeStartValid = true) (h2 : t.timeEndValid = true)
    (h3 : ¬ t.endDate < t.startDate) (h4 : t.maxDurationValid = true)
    (htc : t.outcome = TrajOutcome.cancelled) :
    (generateSequences g gs).paramsErrShown = false ∧
    (findTrajectory t ts).paramsErrShown = false := by
  constructor
  · unfold generateSequences genTryBody
    simp [hok, hattr, hid, hgc]
  · unfold findTrajectory trajTryBody
    simp [hseq, h1, h2, h3, h4, htc]

/-- Witness for C3 at concrete inputs whose searches are cancelled. -/
theorem c3_cancellation_not_surfaced_witness :
    (generateSequences wGenInputsCancelled wGenState).paramsErrShown = false ∧
    (findTrajectory { wTrajInputsBase with outcome := TrajOutcome.cancelled }
      wTrajState).paramsErrShown = false :=
  c3_cancellation_not_surfaced wGenInputsCancelled wGenState
    { wTrajInputsBase with outcome := TrajOutcome.cancelled } wTrajState
    rfl rfl (by decide) rfl wSeq rfl rfl rfl (by decide) rfl rfl

/-- **C6**: a sequence-generation run that ends by cancellation delivers no
sequence set, not even partially: the selector's contents stay empty (it was
cleared at the start of the run and is never filled), the selector stays
disabled, and the run does not reach the success outcome. -/
theorem c6_cancellation_delivers_no_sequences (g : GenInputs) (gs : GenState)
    (hok : g.inputsOk = true)
    (hattr : g.depBody.attractorId = g.destBody.attractorId)
    (hid : g.depBody.id ≠ g.destBody.id)
    (hgc : g.outcome = GenOutcome.cancelled) :
    (generateSequences g gs).seqSelectorContents = [] ∧
    (generateSequences g gs).seqSelectorEnabled = false ∧
    (generateSequences g gs).succeeded = false := by
  unfold generateSequences genTryBody
  simp [hok, hattr, hid, hgc]

/-- Witness for C6 at concrete inputs whose generation is cancelled. -/
theorem c6_cancellation_delivers_no_sequences_witness :
    (generateSequences wGenInputsCancelled wGenState).seqSelectorContents = [] ∧
    (generateSequences wGenInputsCancelled wGenState).seqSelectorEnabled = false ∧
    (generateSequences wGenInputsCancelled wGenState).succeeded = false :=
  c6_cancellation_delivers_no_sequences wGenInputsCancelled wGenState
    rfl rfl (by decide) rfl

/-- A value clamped into a range with lower bound 0 is non-negative. -/
theorem clamp_nonneg (v m : Int) : 0 ≤ clampValue v 0 m := by
  unfold clampValue
  omega

/-- A clamped altitude input converted to metres keeps the parking orbit
inside the sphere of influence of the body it was clamped against. -/
theorem clamp_altitude_le (v : Int) (b : CelestialBody) (h : b.radius ≤ b.soi) :
    b.radius + clampValue v 0 (altitudeMax b) * 1000 ≤ b.soi := by
  unfold clampValue altitudeMax
  rw [Int.fdiv_eq_ediv _ (by norm_num)]
  omega

/-- **C9**: a run of `findTrajectory` that reaches the solver hands it the
re-clamped parking altitudes times 1000: the departure and destination
altitudes are the raw inputs clamped into
`[0, floor((soi - radius) / 1000)]` kilometres of the sequence's actual
first and last bodies, so each altitude passed to the solver is non-negative
and lies below the respective body's sphere of influence. -/
theorem c9_solver_altitudes_clamped (inp : TrajInputs) (st : TrajState)
    (seq : FlybySequence) (hseq : inp.sequenceResult = Except.ok seq)
    (h1 : inp.timeStartValid = true) (h2 : inp.timeEndValid = true)
    (h3 : ¬ inp.endDate < inp.startDate) (h4 : inp.maxDurationValid = true)
    (hfb : (seq.bodies.getD 0 defaultBody).radius ≤ (seq.bodies.getD 0 defaultBody).soi)
    (hlb : (seq.bodies.getD (seq.bodies.length - 1) defaultBody).radius ≤
      (seq.bodies.getD (seq.bodies.length - 1) defaultBody).soi) :
    ∃ s : TrajSettings,
      (findTrajectory inp st).solverCall = some (seq, s) ∧
      s.depAltitude =
        clampValue inp.depAltitudeInput 0 (altitudeMax (seq.bodies.getD 0 defaultBody)) * 1000 ∧
      s.destAltitude =
        clampValue inp.destAltitudeInput 0
          (altitudeMax (seq.bodies.getD (seq.bodies.length - 1) defaultBody)) * 1000 ∧
      0 ≤ s.depAltitude ∧
      (seq.bodies.getD 0 defaultBody).radius + s.depAltitude ≤
        (seq.bodies.getD 0 defaultBody).soi ∧
      0 ≤ s.destAltitude ∧
      (seq.bodies.getD (seq.bodies.length - 1) defaultBody).radius + s.destAltitude ≤
        (seq.bodies.getD (seq.bodies.length - 1) defaultBody).soi := by
  unfold findTrajectory trajTryBody
  simp only [List.getD_eq_getElem?_getD] at hfb hlb
  cases ho : inp.outcome <;>
    simp [hseq, h1, h2, h3, h4, ho, trajCancelledMsg] <;>
    exact ⟨clamp_nonneg _ _, clamp_altitude_le _ _ hfb,
      clamp_nonneg _ _, clamp_altitude_le _ _ hlb⟩

/-- Witness for C9 at concrete inputs: the departure input 80 km is clamped
down to the 10 km cap of the origin body, the destination input -5 km is
clamped up to 0. -/
theorem c9_solver_altitudes_clamped_witness :
    ∃ s : TrajSettings,
      (findTrajectory wTrajInputsBase wTrajState).solverCall = some (wSeq, s) ∧
      s.depAltitude =
        clampValue wTrajInputsBase.depAltitudeInput 0
          (altitudeMax (wSeq.bodies.getD 0 defaultBody)) * 1000 ∧
      s.destAltitude =
        clampValue wTrajInputsBase.destAltitudeInput 0
          (altitudeMax (wSeq.bodies.getD (wSeq.bodies.length - 1) defaultBody)) * 1000 ∧
      0 ≤ s.depAltitude ∧
      (wSeq.bodies.getD 0 defaultBody).radius + s.depAltitude ≤
        (wSeq.bodies.getD 0 defaultBody).soi ∧
      0 ≤ s.destAltitude ∧
      (wSeq.bodies.getD (wSeq.bodies.length - 1) defaultBody).radius + s.destAltitude ≤
        (wSeq.bodies.getD (wSeq.bodies.length - 1) defaultBody).soi :=
  c9_solver_altitudes_clamped wTrajInputsBase wTrajState wSeq rfl rfl rfl
    (by decide) rfl (by decide) (by decide)

/-- **C10**: regardless of outcome, both button handlers restore the control
state: the system selector ends re-enabled, the generation progress message
ends hidden, and the triggering button ends re-enabled once the awaited call
returns. -/
theorem c10_control_state_restored (g : GenInputs) (gs : GenState)
    (t : TrajInputs) (ts : TrajState) :
    (seqGenBtnClick g gs).systemSelectorEnabled = true ∧
    (seqGenBtnClick g gs).progressShown = false ∧
    (seqGenBtnClick g gs).seqGenBtnEnabled = true ∧
    (searchStartBtnClick t ts).systemSelectorEnabled = true ∧
    (searchStartBtnClick t ts).searchBtnEnabled = true :=
  ⟨rfl, rfl, rfl, rfl, rfl⟩

/-- Every sequence produced by the depth-first expansion passed the
four-bound check at the extension that emitted it. -/
theorem genAux_mem_seqOk (sys : GenSystem) (p : SeqParams) :
    ∀ (fuel : Nat) (seqAcc : List CelestialBody) (cur : CelestialBody)
      (s : List CelestialBody), s ∈ genAux sys p fuel seqAcc cur →
      seqOk p s = true := by
  intro fuel
  induction fuel with
  | zero =>
    intro seqAcc cur s hs
    simp [genAux] at hs
  | succ n ih =>
    intro seqAcc cur s hs
    simp only [genAux, List.mem_flatMap] at hs
    obtain ⟨b, hb, hsb⟩ := hs
    by_cases hok : seqOk p (seqAcc ++ [b]) = true
    · rw [if_pos hok] at hsb
      by_cases hd : b.id = p.destinationId
      · rw [if_pos hd] at hsb
        rw [List.mem_singleton] at hsb
        subst hsb
        exact hok
      · rw [if_neg hd] at hsb
        exact ih _ _ _ hsb
    · rw [if_neg hok] at hsb
      simp at hsb

/-- **C1**: every `FlybySequence` returned by sequence generation respects
all four bounds of the search parameters: at most `maxSwingBys` gravity
assists, at most `maxResonant` resonant assists, at most `maxBackLegs` back
legs, and at most `maxBackSpacing` legs between consecutive back legs;
violating branches are pruned before further recursion, so no sequence
escaping a bound is ever emitted. -/
theorem c1_generated_sequences_respect_bounds (sys : GenSystem) (p : SeqParams)
    (fuel : Nat) (s : FlybySequence)
    (hs : s ∈ generateFlybySequences sys p fuel) :
    assistCount s.bodies ≤ p.maxSwingBys ∧
    resonantCount s.bodies ≤ p.maxResonant ∧
    backLegCount s.bodies ≤ p.maxBackLegs ∧
    backSpacingOk p.maxBackSpacing s.bodies = true := by
  unfold generateFlybySequences at hs
  cases hf : sys.bodies.find? (fun b => b.id = p.departureId) with
  | none => rw [hf] at hs; simp at hs
  | some dep =>
    rw [hf] at hs
    rw [List.mem_map] at hs
    obtain ⟨bs, hbs, hEq⟩ := hs
    have h := genAux_mem_seqOk sys p fuel [dep] dep bs hbs
    subst hEq
    unfold seqOk at h
    simp only [Bool.and_eq_true, decide_eq_true_eq] at h
    exact ⟨h.1.1.1, h.1.1.2, h.1.2, h.2⟩

/-- Witness for C1: in the two-body witness system the only generated
sequence is the direct origin-destination transfer, and it satisfies all
four bounds. -/
theorem c1_generated_sequences_respect_bounds_witness :
    wSeq ∈ generateFlybySequences wGenSystem wSeqParams 3 ∧
    (assistCount wSeq.bodies ≤ wSeqParams.maxSwingBys ∧
     resonantCount wSeq.bodies ≤ wSeqParams.maxResonant ∧
     backLegCount wSeq.bodies ≤ wSeqParams.maxBackLegs ∧
     backSpacingOk wSeqParams.maxBackSpacing wSeq.bodies = true) :=
  ⟨by decide,
   c1_generated_sequences_respect_bounds wGenSystem wSeqParams 3 wSeq (by decide)⟩

/-- The first best-so-far value reported after entering `snapAux` is the
carried best. -/
theorem snapAux_head (best : ℚ) (gs : List ℚ) :
    (snapAux best gs).head? = some best := by
  cases gs <;> simp [snapAux]

/-- The best-so-far values reported by `snapAux` are non-increasing. -/
theorem snapAux_chain (best : ℚ) (gs : List ℚ) :
    List.Chain' (fun a b => b ≤ a) (snapAux best gs) := by
  induction gs generalizing best with
  | nil => simp [snapAux]
  | cons g gs ih =>
    rw [snapAux, List.chain'_cons']
    constructor
    · intro y hy
      rw [snapAux_head, Option.mem_def, Option.some_inj] at hy
      subst hy
      exact min_le_left _ _
    · exact ih (min best g)

/-- **C2**: across one run of the trajectory solver, the best delta-v
reported by consecutive progress snapshots is monotonically non-increasing:
the later snapshot's value is at most the earlier one's. -/
theorem c2_best_deltav_nonincreasing (gens : List ℚ) (i : Nat) (a b : ℚ)
    (ha : (solverSnapshots gens)[i]? = some a)
    (hb : (solverSnapshots gens)[i + 1]? = some b) : b ≤ a := by
  cases gens with
  | nil => simp [solverSnapshots] at ha
  | cons g gs =>
    rw [solverSnapshots] at ha hb
    obtain ⟨h1, ha'⟩ := List.getElem?_eq_some_iff.mp ha
    obtain ⟨h2, hb'⟩ := List.getElem?_eq_some_iff.mp hb
    have hchain := List.chain'_iff_get.mp (snapAux_chain g gs) i (by omega)
    rw [List.get_eq_getElem, List.get_eq_getElem] at hchain
    rw [ha', hb'] at hchain
    exact hchain

/-- Witness for C2: on the generation bests 3, 2, 5 the snapshots report
3, 2, 2, and the second snapshot is at most the first. -/
theorem c2_best_deltav_nonincreasing_witness :
    (solverSnapshots wGens)[0]? = some 3 ∧
    (solverSnapshots wGens)[1]? = some 2 ∧ ((2 : ℚ) ≤ 3) :=
  ⟨by norm_num [wGens, solverSnapshots, snapAux],
   by norm_num [wGens, solverSnapshots, snapAux],
   c2_best_deltav_nonincreasing wGens 0 3 2
     (by norm_num [wGens, solverSnapshots, snapAux])
     (by norm_num [wGens, solverSnapshots, snapAux])⟩

/-- Reading back a digit character gives its digit value. -/
theorem digitVal_ofNat (d : Nat) (h : d < 10) :
    digitVal (Char.ofNat (48 + d)) = d := by
  interval_cases d <;> decide

/-- A digit character is never the dash separator. -/
theorem ofNat_digit_ne_dash (d : Nat) (h : d < 10) :
    Char.ofNat (48 + d) ≠ '-' := by
  interval_cases d <;> decide

/-- Appending one digit multiplies the numeral's value by ten and adds the
digit. -/
theorem digitsToNat_append (cs : List Char) (c : Char) :
    digitsToNat (cs ++ [c]) = 10 * digitsToNat cs + digitVal c := by
  unfold digitsToNat
  rw [List.foldl_append]
  simp

/-- An id's numeral parses back to the id. -/
theorem digitsToNat_natToNumeral (n : Nat) : digitsToNat (natToNumeral n) = n := by
  induction n using Nat.strong_induction_on with
  | _ n ih =>
    unfold natToNumeral natToDigitsLE
    by_cases h : n < 10
    · rw [if_pos h]
      simp [digitsToNat, digitVal_ofNat n h]
    · rw [if_neg h, List.reverse_cons, digitsToNat_append]
      have hr := ih (n / 10) (by omega)
      unfold natToNumeral at hr
      rw [hr, digitVal_ofNat (n % 10) (by omega)]
      omega

/-- An id's digits contain no dash. -/
theorem natToDigitsLE_no_dash (n : Nat) : ('-' : Char) ∉ natToDigitsLE n := by
  induction n using Nat.strong_induction_on with
  | _ n ih =>
    unfold natToDigitsLE
    by_cases h : n < 10
    · rw [if_pos h]
      simp only [List.mem_singleton]
      exact fun hc => ofNat_digit_ne_dash n h hc.symm
    · rw [if_neg h]
      simp only [List.mem_cons, not_or]
      exact ⟨fun hc => ofNat_digit_ne_dash (n % 10) (by omega) hc.symm,
        ih (n / 10) (by omega)⟩

/-- An id's numeral contains no dash. -/
theorem natToNumeral_no_dash (n : Nat) : ('-' : Char) ∉ natToNumeral n := by
  unfold natToNumeral
  rw [List.mem_reverse]
  exact natToDigitsLE_no_dash n

/-- An id's numeral is never empty. -/
theorem natToNumeral_ne_nil (n : Nat) : natToNumeral n ≠ [] := by
  unfold natToNumeral natToDigitsLE
  by_cases h : n < 10 <;> simp [h]

/-- Splitting a dash-free token yields just that token. -/
theorem splitDash_no_dash (t : List Char) (h : ('-' : Char) ∉ t) :
    splitDash t = [t] := by
  induction t with
  | nil => rfl
  | cons c t ih =>
    have hc : ¬ c = '-' := fun hc => h (by simp [hc])
    rw [splitDash, if_neg hc, ih (fun hm => h (List.mem_cons_of_mem _ hm))]

/-- Splitting a dash-free token followed by a dash peels off that token. -/
theorem splitDash_append (t r : List Char) (h : ('-' : Char) ∉ t) :
    splitDash (t ++ '-' :: r) = t :: splitDash r := by
  induction t with
  | nil => simp [splitDash]
  | cons c t ih =>
    have hc : ¬ c = '-' := fun hc => h (by simp [hc])
    rw [List.cons_append, splitDash, if_neg hc,
      ih (fun hm => h (List.mem_cons_of_mem _ hm))]

/-- Splitting the dash-joined concatenation of non-empty token lists
recovers the tokens, provided no token contains a dash. -/
theorem splitDash_joinTok (ts : List (List Char)) (hne : ts ≠ [])
    (hd : ∀ t ∈ ts, ('-' : Char) ∉ t) : splitDash (joinTok ts) = ts := by
  induction ts with
  | nil => exact absurd rfl hne
  | cons t ts ih =>
    cases ts with
    | nil => exact splitDash_no_dash t (hd t (by simp))
    | cons t2 ts2 =>
      rw [joinTok, splitDash_append _ _ (hd t (by simp)),
        ih (List.cons_ne_nil _ _) (fun x hx => hd x (by simp [hx]))]
      exact List.cons_ne_nil t2 ts2

/-- Parsing the numerals of bodies resolvable in the system recovers the
bodies. -/
theorem parseTokens_map (sys : List CelestialBody) (bs : List CelestialBody)
    (h : ∀ b ∈ bs, bodyFromId sys b.id = some b) :
    parseTokens sys (bs.map (fun b => natToNumeral b.id)) = some bs := by
  induction bs with
  | nil => rfl
  | cons b bs ih =>
    have h1 : parseToken sys (natToNumeral b.id) = some b := by
      unfold parseToken
      rw [if_neg (natToNumeral_ne_nil b.id), digitsToNat_natToNumeral]
      exact h b (by simp)
    rw [List.map_cons, parseTokens, h1,
      ih (fun x hx => h x (by simp [hx]))]

/-- **C7**: serializing a valid `FlybySequence` to its canonical body-id
string and parsing that string back against the same system yields an equal
sequence — same origin, same destination, and the same intermediate bodies
in the same order. Validity: the sequence is non-empty and each of its
bodies is the one the system resolves for its id. -/
theorem c7_sequence_string_roundtrip (sys : List CelestialBody)
    (s : FlybySequence) (hne : s.bodies ≠ [])
    (hmem : ∀ b ∈ s.bodies, bodyFromId sys b.id = some b) :
    seqFromString (seqToString s) sys = some s := by
  unfold seqFromString seqToString
  rw [splitDash_joinTok _ (by simpa using hne) ?hd]
  · rw [parseTokens_map sys s.bodies hmem]
  case hd =>
    intro t ht
    rw [List.mem_map] at ht
    obtain ⟨b, _, hEq⟩ := ht
    subst hEq
    exact natToNumeral_no_dash b.id

/-- Witness for C7: the two-body witness sequence round-trips through its
canonical string against the witness system. -/
theorem c7_sequence_string_roundtrip_witness :
    wSeq.bodies ≠ [] ∧
    (∀ b ∈ wSeq.bodies, bodyFromId wGenSystem.bodies b.id = some b) ∧
    seqFromString (seqToString wSeq) wGenSystem.bodies = some wSeq :=
  ⟨by decide, by decide,
   c7_sequence_string_roundtrip wGenSystem.bodies wSeq (by decide) (by decide)⟩
